import Mathlib

/-!
Shallow embedding of the `vpc-pluralsight` CDK application.

The repository declares AWS networking infrastructure through two
constructors:

* `VpcPluralsightStack` (src/unnamed/part_003, the current version of
  src/lib/vpc-pluralsight-stack.ts): a straight-line constructor that
  declares VPCs, subnets, route tables, gateways, security groups, EC2
  instances, a peering connection, elastic IPs, an IAM role, log groups
  and flow logs, in a fixed textual order.
* `TransitVpcConstruct` (src/unnamed/part_000): a construct declaring a
  transit VPC, a Cisco router instance, VPN gateways, VPN connections and
  customer gateways; it is defined but never instantiated.

The entry point (src/bin/vpc-pluralsight.ts) creates one `App` and one
`VpcPluralsightStack` named "VpcPluralsightStack".

Each `new <Construct>(this, id, props)` call (and each `addFlowLog` call)
is embedded as one `Resource` record carrying the construct id, the kind
of construct, and the property bag passed at the call site.  A property
value is either a hardcoded string literal (`Val.lit`) or a reference to
an attribute of another construct declared in the same assembly
(`Val.ref constructId attributeName`), mirroring reads such as
`publicVpc.vpcId` or `vpcPeeringConnection.peerOwnerId` in the source.
Security-group ingress rules added with `addIngressRule` become entries
of the owning security group's `ingress` list, matching how the toolkit
inlines same-stack ingress rules into the group declaration.
`applyRemovalPolicy(RemovalPolicy.DESTROY)` becomes the property
`("removalPolicy", Val.lit "DESTROY")` on exactly the resources the
source applies it to.
-/

/-- A property value at a construct call site: either a hardcoded string
literal or a reference to an attribute of another construct (identified
by its construct id). -/
inductive Val where
  | lit : String → Val
  | ref : String → String → Val
  deriving DecidableEq, Repr

/-- True exactly when the value is a hardcoded string literal. -/
def Val.isLit : Val → Bool
  | Val.lit _ => true
  | Val.ref _ _ => false

/-- The kind of construct instantiated at a call site in the source. -/
inductive ResourceKind where
  | vpc
  | subnet
  | routeTable
  | subnetRouteTableAssociation
  | internetGateway
  | vpcGatewayAttachment
  | route
  | securityGroup
  | keyPair
  | inst
  | eip
  | eipAssociation
  | vpcPeeringConnection
  | iamRole
  | logGroup
  | flowLog
  | vpnGateway
  | vpnConnection
  | customerGateway
  | vpnGatewayRoutePropagation
  deriving DecidableEq, Repr

/-- One ingress rule added with `addIngressRule(peer, port, description)`. -/
structure IngressRule where
  peer : String
  port : String
  description : String
  deriving DecidableEq, Repr

/-- One resource declaration: the construct path of its parent relative to
the enclosing stack or construct (empty for direct children), the
construct id passed at the call site, the kind of construct, and the
property bag.  Security groups additionally carry their ingress rules. -/
structure Resource where
  scope : String
  id : String
  kind : ResourceKind
  props : List (String × Val)
  ingress : List IngressRule := []
  deriving DecidableEq, Repr

/-- The optional `StackProps` argument of the stack constructor.  The
constructor forwards it to `super` and never reads it when declaring
children, which the embedding mirrors by ignoring it. -/
structure StackProps where
  stackName : Option String := none
  env : Option String := none
  deriving DecidableEq, Repr

/-- The `VpcPluralsightStack` constructor (src/unnamed/part_003, lines
25-385): the sequence of resource declarations it performs, in source
order.  The constructor body is straight-line code that never reads
`scope`, `id` or `props` when declaring children, so the embedding
returns the same list for every argument triple. -/
def vpcPluralsightStack (_scope _id : String) (_props : Option StackProps) :
    List Resource :=
  [ { scope := "", id := "PublicVpc", kind := ResourceKind.vpc,
      props := [("vpcName", Val.lit "web-vpc"),
                ("cidr", Val.lit "10.1.0.0/16"),
                ("subnetConfiguration", Val.lit "[]"),
                ("removalPolicy", Val.lit "DESTROY")] },
    { scope := "", id := "PublicSubnet", kind := ResourceKind.subnet,
      props := [("vpcId", Val.ref "PublicVpc" "vpcId"),
                ("availabilityZone", Val.lit "eu-west-1a"),
                ("cidrBlock", Val.lit "10.1.254.0/24"),
                ("removalPolicy", Val.lit "DESTROY")] },
    { scope := "", id := "PublicRouteTable", kind := ResourceKind.routeTable,
      props := [("vpcId", Val.ref "PublicVpc" "vpcId"),
                ("removalPolicy", Val.lit "DESTROY")] },
    { scope := "", id := "PublicRouteTableSubnetAssociation1",
      kind := ResourceKind.subnetRouteTableAssociation,
      props := [("subnetId", Val.ref "PublicSubnet" "subnetId"),
                ("routeTableId", Val.ref "PublicRouteTable" "attrRouteTableId"),
                ("removalPolicy", Val.lit "DESTROY")] },
    { scope := "", id := "PublicInternetGateway",
      kind := ResourceKind.internetGateway,
      props := [("removalPolicy", Val.lit "DESTROY")] },
    { scope := "", id := "PublicVpcIgwAttachment",
      kind := ResourceKind.vpcGatewayAttachment,
      props := [("vpcId", Val.ref "PublicVpc" "vpcId"),
                ("internetGatewayId",
                 Val.ref "PublicInternetGateway" "attrInternetGatewayId"),
                ("removalPolicy", Val.lit "DESTROY")] },
    { scope := "", id := "PublicInternetAccessRoute", kind := ResourceKind.route,
      props := [("routeTableId", Val.ref "PublicRouteTable" "attrRouteTableId"),
                ("destinationCidrBlock", Val.lit "0.0.0.0/0"),
                ("gatewayId",
                 Val.ref "PublicInternetGateway" "attrInternetGatewayId"),
                ("removalPolicy", Val.lit "DESTROY")] },
    { scope := "", id := "PublicSecurityGroup", kind := ResourceKind.securityGroup,
      props := [("vpc", Val.ref "PublicVpc" "self"),
                ("securityGroupName", Val.lit "web-pub-sg"),
                ("description", Val.lit "Public VPC security group"),
                ("allowAllOutbound", Val.lit "true"),
                ("removalPolicy", Val.lit "DESTROY")],
      ingress := [⟨"24.96.0.0/16", "tcp:22",
                   "SSH access from IP range 24.96.0.0/16"⟩,
                  ⟨"0.0.0.0/0", "tcp:80",
                   "Allow access into this public VPC from any ipv4 address"⟩,
                  ⟨"::/0", "tcp:80",
                   "Allow access into this public VPC from any ipv6 address"⟩] },
    { scope := "", id := "ssh-keypair", kind := ResourceKind.keyPair,
      props := [("keyName", Val.lit "public-ssh-key-pair"),
                ("removalPolicy", Val.lit "DESTROY")] },
    { scope := "", id := "public-ec2-instance", kind := ResourceKind.inst,
      props := [("vpc", Val.ref "PublicVpc" "self"),
                ("keyName", Val.ref "ssh-keypair" "keyName"),
                ("vpcSubnets", Val.ref "PublicSubnet" "self"),
                ("privateIpAddress", Val.lit "10.1.254.10"),
                ("instanceType", Val.lit "t2.micro"),
                ("machineImage", Val.lit "latestAmazonLinux"),
                ("instanceName", Val.lit "public-ec2-instance"),
                ("securityGroup", Val.ref "PublicSecurityGroup" "self"),
                ("removalPolicy", Val.lit "DESTROY")] },
    { scope := "", id := "public-elastic-ip", kind := ResourceKind.eip,
      props := [("removalPolicy", Val.lit "DESTROY")] },
    { scope := "", id := "public-elastic-ip-network-interface-assc",
      kind := ResourceKind.eipAssociation,
      props := [("instanceId", Val.ref "public-ec2-instance" "instanceId"),
                ("allocationId", Val.ref "public-elastic-ip" "attrAllocationId"),
                ("removalPolicy", Val.lit "DESTROY")] },
    { scope := "", id := "SharedVpc", kind := ResourceKind.vpc,
      props := [("vpcName", Val.lit "shared-vpc"),
                ("cidr", Val.lit "10.2.0.0/16"),
                ("subnetConfiguration", Val.lit "[]"),
                ("removalPolicy", Val.lit "DESTROY")] },
    { scope := "", id := "DatabaseSubnet", kind := ResourceKind.subnet,
      props := [("vpcId", Val.ref "SharedVpc" "vpcId"),
                ("availabilityZone", Val.lit "eu-west-1a"),
                ("cidrBlock", Val.lit "10.2.2.0/24"),
                ("removalPolicy", Val.lit "DESTROY")] },
    { scope := "", id := "SharedRouteTable", kind := ResourceKind.routeTable,
      props := [("vpcId", Val.ref "SharedVpc" "vpcId"),
                ("removalPolicy", Val.lit "DESTROY")] },
    { scope := "", id := "SharedRouteTableSubnetAssociation",
      kind := ResourceKind.subnetRouteTableAssociation,
      props := [("subnetId", Val.ref "DatabaseSubnet" "subnetId"),
                ("routeTableId", Val.ref "SharedRouteTable" "attrRouteTableId"),
                ("removalPolicy", Val.lit "DESTROY")] },
    { scope := "", id := "DatabaseSecurityGroup",
      kind := ResourceKind.securityGroup,
      props := [("vpc", Val.ref "SharedVpc" "self"),
                ("securityGroupName", Val.lit "database-sg"),
                ("description", Val.lit "Database security group"),
                ("allowAllOutbound", Val.lit "true"),
                ("removalPolicy", Val.lit "DESTROY")],
      ingress := [⟨"192.168.0.0/16", "tcp:22",
                   "SSH access from IP range 192.168.0.0/16"⟩,
                  ⟨"10.2.0.0/16", "tcp:22",
                   "SSH access from IP range 10.2.0.0/16"⟩,
                  ⟨"10.1.254.0/24", "tcp:3306",
                   "MySQL access from public subnet into database instance"⟩,
                  ⟨"0.0.0.0/0", "icmp:ping",
                   "Allow ICMP ping from any ipv4"⟩] },
    { scope := "", id := "database-ec2-instance", kind := ResourceKind.inst,
      props := [("vpc", Val.ref "SharedVpc" "self"),
                ("keyName", Val.ref "ssh-keypair" "keyName"),
                ("vpcSubnets", Val.ref "DatabaseSubnet" "self"),
                ("privateIpAddress", Val.lit "10.2.2.41"),
                ("instanceType", Val.lit "t2.micro"),
                ("machineImage", Val.lit "latestAmazonLinux"),
                ("instanceName", Val.lit "database-ec2-instance"),
                ("securityGroup", Val.ref "DatabaseSecurityGroup" "self"),
                ("removalPolicy", Val.lit "DESTROY")] },
    { scope := "", id := "PCX", kind := ResourceKind.vpcPeeringConnection,
      props := [("vpcId", Val.ref "PublicVpc" "vpcId"),
                ("peerVpcId", Val.ref "SharedVpc" "vpcId"),
                ("tag:Name", Val.lit "web-shared-pcx"),
                ("removalPolicy", Val.lit "DESTROY")] },
    { scope := "", id := "public-route-table-peering-route",
      kind := ResourceKind.route,
      props := [("routeTableId", Val.ref "PublicRouteTable" "attrRouteTableId"),
                ("destinationCidrBlock", Val.lit "10.2.2.0/24"),
                ("vpcPeeringConnectionId", Val.ref "PCX" "peerOwnerId"),
                ("removalPolicy", Val.lit "DESTROY")] },
    { scope := "", id := "shared-route-table-peering-route",
      kind := ResourceKind.route,
      props := [("routeTableId", Val.ref "SharedRouteTable" "attrRouteTableId"),
                ("destinationCidrBlock", Val.lit "10.1.254.0/24"),
                ("vpcPeeringConnectionId", Val.ref "PCX" "peerOwnerId"),
                ("removalPolicy", Val.lit "DESTROY")] },
    { scope := "", id := "shared-igw", kind := ResourceKind.internetGateway,
      props := [("tag:Name", Val.lit "shared-igw"),
                ("removalPolicy", Val.lit "DESTROY")] },
    { scope := "", id := "SharedVpcIgwAttachment",
      kind := ResourceKind.vpcGatewayAttachment,
      props := [("vpcId", Val.ref "SharedVpc" "vpcId"),
                ("internetGatewayId", Val.ref "shared-igw" "attrInternetGatewayId"),
                ("removalPolicy", Val.lit "DESTROY")] },
    { scope := "", id := "shared-nat-subnet", kind := ResourceKind.subnet,
      props := [("vpcId", Val.ref "SharedVpc" "vpcId"),
                ("availabilityZone", Val.lit "eu-west-1a"),
                ("cidrBlock", Val.lit "10.2.254.0/24"),
                ("removalPolicy", Val.lit "DESTROY")] },
    { scope := "", id := "nat-pub-route-table", kind := ResourceKind.routeTable,
      props := [("vpcId", Val.ref "SharedVpc" "vpcId"),
                ("tag:Name", Val.lit "nat-pub"),
                ("removalPolicy", Val.lit "DESTROY")] },
    { scope := "", id := "default-nat-route", kind := ResourceKind.route,
      props := [("routeTableId", Val.ref "nat-pub-route-table" "attrRouteTableId"),
                ("destinationCidrBlock", Val.lit "0.0.0.0/0"),
                ("gatewayId", Val.ref "shared-igw" "attrInternetGatewayId"),
                ("removalPolicy", Val.lit "DESTROY")] },
    { scope := "", id := "NATRouteTableSubnetAssociation",
      kind := ResourceKind.subnetRouteTableAssociation,
      props := [("subnetId", Val.ref "shared-nat-subnet" "subnetId"),
                ("routeTableId", Val.ref "nat-pub-route-table" "attrRouteTableId"),
                ("removalPolicy", Val.lit "DESTROY")] },
    { scope := "", id := "nat-security-group", kind := ResourceKind.securityGroup,
      props := [("vpc", Val.ref "SharedVpc" "self"),
                ("securityGroupName", Val.lit "NAT instance"),
                ("description", Val.lit "Security group for NAT instance"),
                ("removalPolicy", Val.lit "DESTROY")],
      ingress := [⟨"24.96.0.0/16", "tcp:22",
                   "Allow SSH access from ip range 24.96.0.0/16"⟩,
                  ⟨"10.0.0.0/8", "all",
                   "Allow 10.0.0.0/8 to access all traffic"⟩,
                  ⟨"192.168.0.0/16", "all",
                   "Allow 192.168.0.0/16 to access all traffic"⟩] },
    { scope := "", id := "nat-ec2-instance", kind := ResourceKind.inst,
      props := [("vpc", Val.ref "SharedVpc" "self"),
                ("keyName", Val.ref "ssh-keypair" "keyName"),
                ("vpcSubnets", Val.ref "shared-nat-subnet" "self"),
                ("privateIpAddress", Val.lit "10.2.254.254"),
                ("instanceType", Val.lit "t2.micro"),
                ("machineImage", Val.lit "NatInstanceImage"),
                ("instanceName", Val.lit "nat-ec2-instance"),
                ("securityGroup", Val.ref "nat-security-group" "self"),
                ("removalPolicy", Val.lit "DESTROY")] },
    { scope := "", id := "nat-eip", kind := ResourceKind.eip,
      props := [("instanceId", Val.ref "nat-ec2-instance" "instanceId"),
                ("removalPolicy", Val.lit "DESTROY")] },
    { scope := "", id := "shared-default-route", kind := ResourceKind.route,
      props := [("routeTableId", Val.ref "SharedRouteTable" "attrRouteTableId"),
                ("destinationCidrBlock", Val.lit "0.0.0.0/0"),
                ("instanceId", Val.ref "nat-ec2-instance" "instanceId"),
                ("removalPolicy", Val.lit "DESTROY")] },
    { scope := "", id := "LogsIMARole", kind := ResourceKind.iamRole,
      props := [("roleName", Val.lit "IAM-logs-role"),
                ("assumedBy", Val.lit "vpc-flow-logs.amazonaws.com"),
                ("policyEffect", Val.lit "ALLOW"),
                ("policyResources", Val.lit "*"),
                ("policyActions", Val.lit "logs:*")] },
    { scope := "", id := "public-vpc-accept-log-group", kind := ResourceKind.logGroup,
      props := [("logGroupName", Val.lit "PublicVPCAcceptLogGroup"),
                ("retention", Val.lit "ONE_DAY"),
                ("removalPolicy", Val.lit "DESTROY")] },
    { scope := "PublicVpc", id := "public-vpc-accept-flow-log",
      kind := ResourceKind.flowLog,
      props := [("destinationLogGroup", Val.ref "public-vpc-accept-log-group" "self"),
                ("destinationRole", Val.ref "LogsIMARole" "self"),
                ("trafficType", Val.lit "ACCEPT")] },
    { scope := "", id := "public-vpc-reject-log-group", kind := ResourceKind.logGroup,
      props := [("logGroupName", Val.lit "PublicVPCRejectLogGroup"),
                ("retention", Val.lit "ONE_DAY"),
                ("removalPolicy", Val.lit "DESTROY")] },
    { scope := "PublicVpc", id := "public-vpc-reject-flow-log",
      kind := ResourceKind.flowLog,
      props := [("destinationLogGroup", Val.ref "public-vpc-reject-log-group" "self"),
                ("destinationRole", Val.ref "LogsIMARole" "self"),
                ("trafficType", Val.lit "REJECT")] } ]

/-- The `TransitVpcConstructProps` interface (src/unnamed/part_000, lines
6-9): the SSH key pair name handed to the Cisco router instance and the
construct id of the shared VPC whose attributes the construct reads. -/
structure TransitVpcConstructProps where
  sshKeyPairName : Val
  sharedVpc : String
  deriving DecidableEq, Repr

/-- The `TransitVpcConstruct` constructor (src/unnamed/part_000, lines
22-187): the sequence of resource declarations it would perform if
instantiated, in source order.  The construct is defined in the source
but never instantiated anywhere in the repository. -/
def transitVpcConstruct (_scope _id : String) (props : TransitVpcConstructProps) :
    List Resource :=
  [ { scope := "", id := "transit-vpc", kind := ResourceKind.vpc,
      props := [("vpcName", Val.lit "transit-vpc"),
                ("cidr", Val.lit "10.3.0.0/16"),
                ("subnetConfiguration", Val.lit "[]"),
                ("removalPolicy", Val.lit "DESTROY")] },
    { scope := "", id := "transit-vpc-subnet", kind := ResourceKind.subnet,
      props := [("vpcId", Val.ref "transit-vpc" "vpcId"),
                ("availabilityZone", Val.lit "eu-west-1a"),
                ("cidrBlock", Val.lit "10.3.0.0/24"),
                ("removalPolicy", Val.lit "DESTROY")] },
    { scope := "", id := "transit-vpc-internet-gateway",
      kind := ResourceKind.internetGateway,
      props := [("tag:Name", Val.lit "transit-igw"),
                ("removalPolicy", Val.lit "DESTROY")] },
    { scope := "", id := "transit-vpc-igw-attachment",
      kind := ResourceKind.vpcGatewayAttachment,
      props := [("vpcId", Val.ref "transit-vpc" "vpcId"),
                ("internetGatewayId",
                 Val.ref "transit-vpc-internet-gateway" "attrInternetGatewayId"),
                ("removalPolicy", Val.lit "DESTROY")] },
    { scope := "", id := "transit-vpc-route-table", kind := ResourceKind.routeTable,
      props := [("vpcId", Val.ref "transit-vpc" "vpcId"),
                ("tag:Name", Val.lit "transit"),
                ("removalPolicy", Val.lit "DESTROY")] },
    { scope := "", id := "transit-route-table-default", kind := ResourceKind.route,
      props := [("routeTableId",
                 Val.ref "transit-vpc-route-table" "attrRouteTableId"),
                ("destinationCidrBlock", Val.lit "0.0.0.0/0"),
                ("gatewayId",
                 Val.ref "transit-vpc-internet-gateway" "attrInternetGatewayId"),
                ("removalPolicy", Val.lit "DESTROY")] },
    { scope := "", id := "transit-subnet-route-table-assc",
      kind := ResourceKind.subnetRouteTableAssociation,
      props := [("routeTableId",
                 Val.ref "transit-vpc-route-table" "attrRouteTableId"),
                ("subnetId", Val.ref "transit-vpc-subnet" "subnetId"),
                ("removalPolicy", Val.lit "DESTROY")] },
    { scope := "", id := "transit-instance-sec-group",
      kind := ResourceKind.securityGroup,
      props := [("vpc", Val.ref "transit-vpc" "self"),
                ("securityGroupName",
                 Val.lit "Transit VPC ec2 instance security group"),
                ("removalPolicy", Val.lit "DESTROY")],
      ingress := [⟨"24.96.0.0/16", "tcp:22",
                   "SSH access from ipv4 range 24.96.0.0/16"⟩] },
    { scope := "", id := "cisco-router-instance", kind := ResourceKind.inst,
      props := [("vpc", Val.ref "transit-vpc" "self"),
                ("keyName", props.sshKeyPairName),
                ("privateIpAddress", Val.lit "10.3.0.10"),
                ("vpcSubnets", Val.ref "transit-vpc-subnet" "self"),
                ("instanceType", Val.lit "t2.medium"),
                ("instanceName", Val.lit "transit-csr"),
                ("machineImage",
                 Val.lit "Cisco Cloud Services Router (CSR) 1000V - BYOL for Maximum Performance"),
                ("removalPolicy", Val.lit "DESTROY")] },
    { scope := "", id := "transit-instance-eip", kind := ResourceKind.eip,
      props := [("instanceId", Val.ref "cisco-router-instance" "instanceId"),
                ("removalPolicy", Val.lit "DESTROY")] },
    { scope := "", id := "transit-vpc-gateway", kind := ResourceKind.vpnGateway,
      props := [("type", Val.lit "ipsec.1"),
                ("removalPolicy", Val.lit "DESTROY")] },
    { scope := "", id := "transit-vpc-vpg-attachment",
      kind := ResourceKind.vpcGatewayAttachment,
      props := [("vpcId", Val.ref props.sharedVpc "vpcId"),
                ("vpnGatewayId", Val.ref "transit-vpc-gateway" "gatewayId"),
                ("removalPolicy", Val.lit "DESTROY")] },
    { scope := "", id := "transit-shared-vpc-vpn-conn",
      kind := ResourceKind.vpnConnection,
      props := [("vpc", Val.ref props.sharedVpc "self"),
                ("ip", Val.ref "cisco-router-instance" "instancePublicIp"),
                ("removalPolicy", Val.lit "DESTROY")] },
    { scope := "", id := "transitRouteProp",
      kind := ResourceKind.vpnGatewayRoutePropagation,
      props := [("vpnGatewayId", Val.ref "transit-vpc-gateway" "gatewayId"),
                ("routeTableIds", Val.lit "*"),
                ("removalPolicy", Val.lit "DESTROY")] },
    { scope := "", id := "on-prem-customer-gateway-1",
      kind := ResourceKind.customerGateway,
      props := [("tag:Name", Val.lit "chs-r1"),
                ("bgpAsn", Val.lit "65000"),
                ("type", Val.lit "ipsec.1"),
                ("ipAddress", Val.lit "24.96.154.173"),
                ("removalPolicy", Val.lit "DESTROY")] },
    { scope := "", id := "on-prem-customer-gateway-2",
      kind := ResourceKind.customerGateway,
      props := [("tag:Name", Val.lit "atl-r1"),
                ("bgpAsn", Val.lit "65001"),
                ("type", Val.lit "ipsec.1"),
                ("ipAddress", Val.lit "24.96.154.174"),
                ("removalPolicy", Val.lit "DESTROY")] },
    { scope := "", id := "on-prem-vpg", kind := ResourceKind.vpnGateway,
      props := [("type", Val.lit "ipsec.1"),
                ("removalPolicy", Val.lit "DESTROY")] },
    { scope := "", id := "on-prem-vpc-transit-attachment",
      kind := ResourceKind.vpcGatewayAttachment,
      props := [("vpcId", Val.ref "transit-vpc" "vpcId"),
                ("vpnGatewayId", Val.ref "on-prem-vpg" "gatewayId"),
                ("removalPolicy", Val.lit "DESTROY")] },
    { scope := "", id := "on-prem-1-vpn-connection",
      kind := ResourceKind.vpnConnection,
      props := [("vpc", Val.ref "transit-vpc" "self"),
                ("ip", Val.ref "on-prem-customer-gateway-1" "ipAddress"),
                ("removalPolicy", Val.lit "DESTROY")] },
    { scope := "", id := "on-prem-2-vpn-connection",
      kind := ResourceKind.vpnConnection,
      props := [("vpc", Val.ref "transit-vpc" "self"),
                ("ip", Val.ref "on-prem-customer-gateway-2" "ipAddress"),
                ("removalPolicy", Val.lit "DESTROY")] } ]

/-- The application entry point (src/bin/vpc-pluralsight.ts): one `App`
holding exactly one stack, a `VpcPluralsightStack` with id
"VpcPluralsightStack" and no props. -/
def appStacks : List (String × List Resource) :=
  [("VpcPluralsightStack", vpcPluralsightStack "app" "VpcPluralsightStack" none)]

/-- All resource declarations produced by one run of the application. -/
def appDeclarations : List Resource :=
  vpcPluralsightStack "app" "VpcPluralsightStack" none

/-- Look up a property by key in a resource's property bag. -/
def lookupProp (r : Resource) (k : String) : Option Val :=
  (r.props.find? (fun kv => kv.1 == k)).map (fun kv => kv.2)

/-- Split a list of characters into the groups separated by `sep`. -/
def splitOnChar (sep : Char) : List Char → List (List Char)
  | [] => [[]]
  | c :: cs =>
    let rest := splitOnChar sep cs
    if c = sep then [] :: rest
    else
      match rest with
      | [] => [[c]]
      | g :: gs => (c :: g) :: gs

/-- Parse a nonempty run of decimal digits. -/
def parseDecimal (cs : List Char) : Option Nat :=
  if cs.isEmpty then none
  else
    cs.foldl
      (fun acc c =>
        acc.bind (fun n => if c.isDigit then some (n * 10 + (c.toNat - 48)) else none))
      (some 0)

/-- Parse a dotted-quad IPv4 address into its 32-bit numeric value. -/
def ipv4ToNat (cs : List Char) : Option Nat :=
  match splitOnChar '.' cs with
  | [a, b, c, d] => do
    let a ← parseDecimal a
    let b ← parseDecimal b
    let c ← parseDecimal c
    let d ← parseDecimal d
    if a ≤ 255 && b ≤ 255 && c ≤ 255 && d ≤ 255 then
      some (a * 2 ^ 24 + b * 2 ^ 16 + c * 2 ^ 8 + d)
    else none
  | _ => none

/-- Parse a CIDR string "a.b.c.d/len" into its base address and mask length. -/
def parseCidr (s : String) : Option (Nat × Nat) :=
  match splitOnChar '/' s.data with
  | [ip, len] => do
    let base ← ipv4ToNat ip
    let l ← parseDecimal len
    if l ≤ 32 then some (base, l) else none
  | _ => none

/-- Number of addresses covered by a mask of the given length. -/
def blockSize (l : Nat) : Nat := 2 ^ (32 - l)

/-- True when every address of the `inner` CIDR block lies inside the
`outer` CIDR block. -/
def cidrContains (outer inner : String) : Bool :=
  match parseCidr outer, parseCidr inner with
  | some (b1, l1), some (b2, l2) =>
    decide (l1 ≤ l2) && (b1 / blockSize l1 == b2 / blockSize l1)
  | _, _ => false

/-- True when the two CIDR blocks cover no common address. -/
def cidrDisjoint (a b : String) : Bool :=
  match parseCidr a, parseCidr b with
  | some (b1, l1), some (b2, l2) =>
    let l := min l1 l2
    !(b1 / blockSize l == b2 / blockSize l)
  | _, _ => false

/-- True when the subnet resource `r` names a VPC declared in `decls` via
its `vpcId` reference and its `cidrBlock` literal is contained in that
VPC's `cidr` literal. -/
def subnetWithinDeclaredVpc (decls : List Resource) (r : Resource) : Bool :=
  match lookupProp r "vpcId", lookupProp r "cidrBlock" with
  | some (Val.ref vid _), some (Val.lit sub) =>
    decls.any (fun v =>
      v.id == vid && v.kind == ResourceKind.vpc &&
        (match lookupProp v "cidr" with
         | some (Val.lit vc) => cidrContains vc sub
         | _ => false))
  | _, _ => false

/-- True when every subnet declaration in `decls` is contained in the VPC
it references. -/
def allSubnetsWithinVpc (decls : List Resource) : Bool :=
  decls.all (fun r =>
    r.kind != ResourceKind.subnet || subnetWithinDeclaredVpc decls r)

/-- Execution of a straight-line sequence of resource declarations under
a failure model: `fails r` says whether declaring `r` raises.  The
constructor contains no try/catch, so the first raising declaration
aborts the remainder; the result is the list of resources actually
declared and whether an error escaped. -/
def declareAll (fails : Resource → Bool) : List Resource → List Resource × Bool
  | [] => ([], false)
  | r :: rest =>
    if fails r then ([], true)
    else
      let p := declareAll fails rest
      (r :: p.1, p.2)

/-- True when the entries of the list are pairwise distinct. -/
def pairwiseDistinct : List (String × String) → Bool
  | [] => true
  | x :: xs => (!xs.contains x) && pairwiseDistinct xs

/-- The boolean pairwise-distinctness check agrees with `List.Nodup`. -/
theorem pairwiseDistinct_eq_true_iff (l : List (String × String)) :
    pairwiseDistinct l = true ↔ l.Nodup := by
  induction l with
  | nil => simp [pairwiseDistinct]
  | cons x xs ih =>
    simp [pairwiseDistinct, ih, List.contains, List.elem_iff, List.nodup_cons]

/-- Straight-line execution declares exactly the prefix before the first
failing declaration, and an error escapes exactly when some declaration
fails. -/
theorem declareAll_takeWhile (fails : Resource → Bool) (l : List Resource) :
    declareAll fails l = (l.takeWhile (fun r => !fails r), l.any fails) := by
  induction l with
  | nil => rfl
  | cons r rest ih =>
    by_cases h : fails r = true
    · simp [declareAll, List.takeWhile, List.any, h]
    · simp only [Bool.not_eq_true] at h
      simp [declareAll, List.takeWhile, List.any, h, ih]

/-- C1: for every two constructions of `VpcPluralsightStack` with the same
scope and id, the resulting sequence of resource declarations is
identical, and every CIDR block, availability zone and tag value in the
declared resources is a hardcoded string literal, so no declared resource
property of those kinds depends on any runtime input or environment. -/
theorem vpcPluralsightStack_deterministic_and_hardcoded
    (scope id : String) (p q : Option StackProps) :
    vpcPluralsightStack scope id p = vpcPluralsightStack scope id q ∧
    ∀ r ∈ vpcPluralsightStack scope id p, ∀ kv ∈ r.props,
      (kv.1 = "cidr" ∨ kv.1 = "cidrBlock" ∨ kv.1 = "destinationCidrBlock" ∨
       kv.1 = "availabilityZone" ∨ kv.1 = "tag:Name") →
      kv.2.isLit = true := by
  refine ⟨rfl, ?_⟩
  show ∀ r ∈ vpcPluralsightStack "app" "VpcPluralsightStack" none,
    ∀ kv ∈ r.props,
      (kv.1 = "cidr" ∨ kv.1 = "cidrBlock" ∨ kv.1 = "destinationCidrBlock" ∨
       kv.1 = "availabilityZone" ∨ kv.1 = "tag:Name") →
      kv.2.isLit = true
  decide

/-- Witness for C1 at concrete arguments. -/
theorem vpcPluralsightStack_deterministic_and_hardcoded_witness :
    vpcPluralsightStack "app" "VpcPluralsightStack" none =
      vpcPluralsightStack "app" "VpcPluralsightStack" (some {}) ∧
    ∀ r ∈ vpcPluralsightStack "app" "VpcPluralsightStack" none, ∀ kv ∈ r.props,
      (kv.1 = "cidr" ∨ kv.1 = "cidrBlock" ∨ kv.1 = "destinationCidrBlock" ∨
       kv.1 = "availabilityZone" ∨ kv.1 = "tag:Name") →
      kv.2.isLit = true :=
  vpcPluralsightStack_deterministic_and_hardcoded "app" "VpcPluralsightStack"
    none (some {})

/-- C2: constructing the application declares at least one resource of
each of these kinds: a VPC, a subnet, a route table, a gateway, a
security group, an EC2 instance, a VPN or peering construct (here the
VPC peering connection), and a flow log. -/
theorem app_declares_each_resource_kind :
    (∃ r ∈ appDeclarations, r.kind = ResourceKind.vpc) ∧
    (∃ r ∈ appDeclarations, r.kind = ResourceKind.subnet) ∧
    (∃ r ∈ appDeclarations, r.kind = ResourceKind.routeTable) ∧
    (∃ r ∈ appDeclarations, r.kind = ResourceKind.internetGateway) ∧
    (∃ r ∈ appDeclarations, r.kind = ResourceKind.securityGroup) ∧
    (∃ r ∈ appDeclarations, r.kind = ResourceKind.inst) ∧
    (∃ r ∈ appDeclarations, r.kind = ResourceKind.vpcPeeringConnection) ∧
    (∃ r ∈ appDeclarations, r.kind = ResourceKind.flowLog) := by
  decide

/-- C4: the `VpcPluralsightStack` constructor is extensionally equal to a
fixed constant finite sequence of resource declarations: it declares the
same 36 resources in the same order on every invocation, independent of
scope, id and props. -/
theorem vpcPluralsightStack_constant_sequence
    (s i t j : String) (p q : Option StackProps) :
    vpcPluralsightStack s i p = vpcPluralsightStack t j q ∧
    (vpcPluralsightStack s i p).length = 36 :=
  ⟨rfl, rfl⟩

/-- Witness for C4 at concrete arguments. -/
theorem vpcPluralsightStack_constant_sequence_witness :
    vpcPluralsightStack "app" "VpcPluralsightStack" none =
      vpcPluralsightStack "other" "OtherId" (some {}) ∧
    (vpcPluralsightStack "app" "VpcPluralsightStack" none).length = 36 :=
  vpcPluralsightStack_constant_sequence "app" "VpcPluralsightStack"
    "other" "OtherId" none (some {})

/-- C5: the application entry point constructs only `VpcPluralsightStack`,
and no declaration of the run is a transit VPC (10.3.0.0/16), a Cisco
router instance (transit-csr), a VPN gateway, a VPN connection, a VPN
gateway route propagation, or a customer gateway. -/
theorem transitVpcConstruct_never_instantiated :
    appStacks.map Prod.fst = ["VpcPluralsightStack"] ∧
    ∀ r ∈ appDeclarations,
      r.kind ≠ ResourceKind.vpnGateway ∧
      r.kind ≠ ResourceKind.vpnConnection ∧
      r.kind ≠ ResourceKind.customerGateway ∧
      r.kind ≠ ResourceKind.vpnGatewayRoutePropagation ∧
      ("cidr", Val.lit "10.3.0.0/16") ∉ r.props ∧
      ("instanceName", Val.lit "transit-csr") ∉ r.props := by
  decide

/-- C6: both VPC peering routes declared by the stack set their
`vpcPeeringConnectionId` to the peering connection's `peerOwnerId`
attribute, not to the peering connection's own resource id. -/
theorem peering_routes_reference_peerOwnerId :
    (∃ r ∈ appDeclarations, r.id = "public-route-table-peering-route" ∧
      r.kind = ResourceKind.route ∧
      ("destinationCidrBlock", Val.lit "10.2.2.0/24") ∈ r.props ∧
      ("routeTableId", Val.ref "PublicRouteTable" "attrRouteTableId") ∈ r.props ∧
      lookupProp r "vpcPeeringConnectionId" = some (Val.ref "PCX" "peerOwnerId")) ∧
    (∃ r ∈ appDeclarations, r.id = "shared-route-table-peering-route" ∧
      r.kind = ResourceKind.route ∧
      ("destinationCidrBlock", Val.lit "10.1.254.0/24") ∈ r.props ∧
      ("routeTableId", Val.ref "SharedRouteTable" "attrRouteTableId") ∈ r.props ∧
      lookupProp r "vpcPeeringConnectionId" = some (Val.ref "PCX" "peerOwnerId")) ∧
    Val.ref "PCX" "peerOwnerId" ≠ Val.ref "PCX" "ref" := by
  decide

/-- C7: within any one construct scope, the construct ids of all declared
children are pairwise distinct, both in the stack and in the transit
construct: the (scope, id) pairs of the declarations contain no
duplicate, so no constructor call is repeated for the same id. -/
theorem construct_ids_pairwise_distinct
    (s i t j : String) (p : Option StackProps) (ps : TransitVpcConstructProps) :
    ((vpcPluralsightStack s i p).map (fun r => (r.scope, r.id))).Nodup ∧
    ((transitVpcConstruct t j ps).map (fun r => (r.scope, r.id))).Nodup :=
  ⟨(pairwiseDistinct_eq_true_iff _).mp rfl,
   (pairwiseDistinct_eq_true_iff _).mp rfl⟩

/-- Witness for C7 at concrete arguments. -/
theorem construct_ids_pairwise_distinct_witness :
    ((vpcPluralsightStack "app" "VpcPluralsightStack" none).map
      (fun r => (r.scope, r.id))).Nodup ∧
    ((transitVpcConstruct "stack" "transit"
        ⟨Val.lit "public-ssh-key-pair", "SharedVpc"⟩).map
      (fun r => (r.scope, r.id))).Nodup :=
  construct_ids_pairwise_distinct "app" "VpcPluralsightStack" "stack" "transit"
    none ⟨Val.lit "public-ssh-key-pair", "SharedVpc"⟩

/-- C8: the stack constructor has no retry or failure-recovery logic:
under any failure model, the declarations that succeed are exactly the
prefix before the first failing one (so every resource declared before
the failure remains declared, none after it is declared, and none is
attempted twice), and an error escapes exactly when some declaration
fails. -/
theorem stack_error_propagation_no_retry
    (s i : String) (p : Option StackProps) (fails : Resource → Bool) :
    declareAll fails (vpcPluralsightStack s i p) =
      ((vpcPluralsightStack s i p).takeWhile (fun r => !fails r),
       (vpcPluralsightStack s i p).any fails) :=
  declareAll_takeWhile fails (vpcPluralsightStack s i p)

/-- Witness for C8: declaring with a failure at the peering connection
declares exactly the 18 resources before it and propagates the error. -/
theorem stack_error_propagation_no_retry_witness :
    declareAll (fun r => r.id == "PCX")
        (vpcPluralsightStack "app" "VpcPluralsightStack" none) =
      ((vpcPluralsightStack "app" "VpcPluralsightStack" none).takeWhile
        (fun r => !(r.id == "PCX")),
       (vpcPluralsightStack "app" "VpcPluralsightStack" none).any
        (fun r => r.id == "PCX")) :=
  stack_error_propagation_no_retry "app" "VpcPluralsightStack" none
    (fun r => r.id == "PCX")

/-- C9: the declarations emitted by `TransitVpcConstruct` include the VPN
connection and the Cisco router instance, but no declaration carries a
router-side configuration payload (no user data or configuration
property), so completing the VPN setup requires out-of-band manual
steps not performed by the program. -/
theorem transit_declarations_no_router_config
    (s i : String) (ps : TransitVpcConstructProps) :
    ((transitVpcConstruct s i ps).any (fun r =>
        r.kind == ResourceKind.vpnConnection &&
        r.id == "transit-shared-vpc-vpn-conn")) = true ∧
    ((transitVpcConstruct s i ps).any (fun r =>
        r.kind == ResourceKind.inst &&
        lookupProp r "instanceName" == some (Val.lit "transit-csr"))) = true ∧
    ((transitVpcConstruct s i ps).all (fun r =>
        r.props.all (fun kv =>
          !(kv.1 == "userData" || kv.1 == "init" ||
            kv.1 == "routerConfiguration")))) = true :=
  ⟨rfl, rfl, rfl⟩

/-- Witness for C9 at concrete arguments. -/
theorem transit_declarations_no_router_config_witness :
    ((transitVpcConstruct "stack" "transit"
        ⟨Val.lit "public-ssh-key-pair", "SharedVpc"⟩).any (fun r =>
        r.kind == ResourceKind.vpnConnection &&
        r.id == "transit-shared-vpc-vpn-conn")) = true ∧
    ((transitVpcConstruct "stack" "transit"
        ⟨Val.lit "public-ssh-key-pair", "SharedVpc"⟩).any (fun r =>
        r.kind == ResourceKind.inst &&
        lookupProp r "instanceName" == some (Val.lit "transit-csr"))) = true ∧
    ((transitVpcConstruct "stack" "transit"
        ⟨Val.lit "public-ssh-key-pair", "SharedVpc"⟩).all (fun r =>
        r.props.all (fun kv =>
          !(kv.1 == "userData" || kv.1 == "init" ||
            kv.1 == "routerConfiguration")))) = true :=
  transit_declarations_no_router_config "stack" "transit"
    ⟨Val.lit "public-ssh-key-pair", "SharedVpc"⟩

/-- C10: every subnet declared by the deployed stack has a CIDR block
contained in its parent VPC's CIDR block, the two peered VPCs are
PublicVpc (10.1.0.0/16) and SharedVpc (10.2.0.0/16), and those two CIDR
blocks are disjoint address ranges. -/
theorem subnet_cidrs_within_parent_vpc :
    allSubnetsWithinVpc appDeclarations = true ∧
    cidrContains "10.1.0.0/16" "10.1.254.0/24" = true ∧
    cidrContains "10.2.0.0/16" "10.2.2.0/24" = true ∧
    cidrContains "10.2.0.0/16" "10.2.254.0/24" = true ∧
    (∃ r ∈ appDeclarations, r.id = "PCX" ∧
      r.kind = ResourceKind.vpcPeeringConnection ∧
      lookupProp r "vpcId" = some (Val.ref "PublicVpc" "vpcId") ∧
      lookupProp r "peerVpcId" = some (Val.ref "SharedVpc" "vpcId")) ∧
    (∃ r ∈ appDeclarations, r.id = "PublicVpc" ∧
      lookupProp r "cidr" = some (Val.lit "10.1.0.0/16")) ∧
    (∃ r ∈ appDeclarations, r.id = "SharedVpc" ∧
      lookupProp r "cidr" = some (Val.lit "10.2.0.0/16")) ∧
    cidrDisjoint "10.1.0.0/16" "10.2.0.0/16" = true := by
  decide
